import Mathlib

/-!
Verification of the LEDNETWF BLE device protocol engine
(custom_components/lednetwf_ble): a shallow embedding of the packet codec
(models/model_0x56.py, models/model_abstractions.py) and the session
controller helpers (lednetwf.py), with theorems settling the frozen claims.

Modelling conventions:
* Python machine integers are `Nat`/`Int`; Python floats are modelled as
  exact rationals `ℚ` (the claims under study are insensitive to float
  rounding: they concern byte ranges, checksums and table lookups).
* A Python dict is an association list; assignment is last-write-wins
  keeping insertion order (`dictInsert`), lookup is `dictGet`.  The
  effect map is given as a literal association list; the theorem
  `EFFECT_MAP_0x56_faithful` proves the literal equal to the exact loop
  construction of models/model_0x56.py, so later proofs may compute
  with the literal.
* A Python method that can raise is embedded as a function into
  `Except (PyErr × DeviceState) ...`: `Except.error (e, st)` models
  exception `e` escaping with the partially mutated object state `st`,
  and `Except.ok` models a normal return.
* External collaborators that are not part of the sources under
  verification (the `const.py` enums `LedTypes_StripLight` /
  `ColorOrdering`, and Python's `bytes.decode("utf-8", errors="ignore")`)
  are passed in as explicit parameters, so theorems quantifying over
  them hold for any faithful instantiation.  On ASCII-only inputs the
  utf-8-ignore decode is the identity on code points, which is what the
  concrete witnesses use.
-/

namespace LednetWF

deriving instance DecidableEq for Except

/-- Model of the Python exceptions the embedded code can raise. -/
inductive PyErr where
  | indexError
  | keyError
  | valueError
  | typeError
deriving DecidableEq, Repr

/-- Model of homeassistant's `ColorMode` values used by the sources. -/
inductive ColorMode where
  | unknown
  | hs
  | brightnessMode
  | colorTemp
deriving DecidableEq, Repr

/-- homeassistant's `EFFECT_OFF` sentinel string. -/
def EFFECT_OFF : String := "off"

/-- Python dict assignment `m[k] = v`: replaces the value of an existing
key in place (preserving insertion order), otherwise appends. -/
def dictInsert {κ α : Type} [BEq κ] (m : List (κ × α)) (k : κ) (v : α) :
    List (κ × α) :=
  if m.any (fun p => p.1 == k) then
    m.map (fun p => if p.1 == k then (k, v) else p)
  else m ++ [(k, v)]

/-- Python dict lookup `m.get(k)` (`m[k]` raises `KeyError` on `none`). -/
def dictGet {κ α : Type} [BEq κ] (m : List (κ × α)) (k : κ) : Option α :=
  (m.find? (fun p => p.1 == k)).map (fun p => p.2)

/-- Building a Python dict from a sequence of assignments. -/
def dictBuild {κ α : Type} [BEq κ] (l : List (κ × α)) : List (κ × α) :=
  l.foldl (fun m p => dictInsert m p.1 p.2) []

/-- When the assigned keys are distinct, no assignment overwrites, so
building the dict from `acc` just appends the assignment sequence. -/
theorem dictBuild_go_eq {κ α : Type} [BEq κ] [LawfulBEq κ] :
    ∀ (l acc : List (κ × α)), ((acc ++ l).map Prod.fst).Nodup →
      l.foldl (fun m p => dictInsert m p.1 p.2) acc = acc ++ l := by
  intro l
  induction l with
  | nil => intro acc _; simp
  | cons p t ih =>
    intro acc h
    have hmap : ((acc.map Prod.fst) ++ (p.1 :: t.map Prod.fst)).Nodup := by
      simpa using h
    have hnotin : p.1 ∉ acc.map Prod.fst := by
      rcases List.nodup_append.mp hmap with ⟨_, _, hdisj⟩
      intro hmem
      exact hdisj hmem (by simp)
    have hins : dictInsert acc p.1 p.2 = acc ++ [p] := by
      have hany : acc.any (fun q => q.1 == p.1) = false := by
        rw [List.any_eq_false]
        intro q hq
        simp only [beq_iff_eq]
        intro hq1
        exact hnotin (hq1 ▸ List.mem_map_of_mem Prod.fst hq)
      simp [dictInsert, hany]
    have hre : acc ++ [p] ++ t = acc ++ p :: t := by
      simp
    calc (p :: t).foldl (fun m q => dictInsert m q.1 q.2) acc
        = t.foldl (fun m q => dictInsert m q.1 q.2) (dictInsert acc p.1 p.2) := by
          simp [List.foldl_cons]
      _ = t.foldl (fun m q => dictInsert m q.1 q.2) (acc ++ [p]) := by rw [hins]
      _ = (acc ++ [p]) ++ t := by
          apply ih
          rw [hre]
          exact h
      _ = acc ++ p :: t := hre

/-- `dictBuild` on a duplicate-free assignment sequence is the identity. -/
theorem dictBuild_eq_self {κ α : Type} [BEq κ] [LawfulBEq κ]
    (l : List (κ × α)) (h : (l.map Prod.fst).Nodup) : dictBuild l = l := by
  simpa using dictBuild_go_eq l [] (by simpa using h)

/-- In a dict with duplicate-free keys, looking up the key of any entry
returns that entry's value. -/
theorem dictGet_mem {κ α : Type} [BEq κ] [LawfulBEq κ] :
    ∀ (m : List (κ × α)), ((m.map Prod.fst).Nodup) →
      ∀ p ∈ m, dictGet m p.1 = some p.2 := by
  intro m
  induction m with
  | nil => intro _ p hp; cases hp
  | cons q t ih =>
    intro h p hp
    rw [List.map_cons] at h
    have h' := List.nodup_cons.mp h
    rcases List.mem_cons.mp hp with rfl | hp'
    · rw [dictGet, List.find?_cons_of_pos _ (by simp)]
      rfl
    · have hne : (q.1 == p.1) = false := by
        rw [beq_eq_false_iff_ne]
        intro hq1
        exact h'.1 (hq1 ▸ List.mem_map_of_mem Prod.fst hp')
      have ht := ih h'.2 p hp'
      rw [dictGet, List.find?_cons_of_neg _ (by simp [hne])]
      exact ht

/-- Boolean check that a list of naturals is strictly ascending. -/
def strictAscB : List Nat → Bool
  | [] => true
  | [_] => true
  | a :: b :: t => decide (a < b) && strictAscB (b :: t)

/-- A strictly ascending list is pairwise `<`. -/
theorem strictAscB_pairwise :
    ∀ l : List Nat, strictAscB l = true → l.Pairwise (fun a b => a < b) := by
  intro l
  induction l with
  | nil => intro _; exact List.Pairwise.nil
  | cons a t ih =>
    intro h
    cases t with
    | nil => exact List.pairwise_singleton _ _
    | cons b t' =>
      simp only [strictAscB, Bool.and_eq_true, decide_eq_true_eq] at h
      have hpt := ih h.2
      have hb := List.pairwise_cons.mp hpt
      refine List.pairwise_cons.mpr ⟨?_, hpt⟩
      intro y hy
      rcases List.mem_cons.mp hy with rfl | hy'
      · exact h.1
      · exact lt_trans h.1 (hb.1 y hy')

/-- The sequence of assignments building `EFFECT_MAP_0x56` in
model_0x56.py: plain effects `"Effect e" ↦ e` for `e ∈ 1..99`,
`"Cycle Modes" ↦ 255`, static effects `"Static Effect e" ↦ e <<< 8` for
`e ∈ 1..10`, and sound-reactive effects
`"Sound Reactive (e-0x32)" ↦ e <<< 8` for `e ∈ 0x33..0x41`. -/
def effectAssignments : List (String × Nat) :=
  ((List.range' 1 99).map (fun e => (s!"Effect {e}", e)))
    ++ [("Cycle Modes", 255)]
    ++ ((List.range' 1 10).map (fun e => (s!"Static Effect {e}", e <<< 8)))
    ++ ((List.range' (1 + 0x32) 15).map
        (fun e => (s!"Sound Reactive {e - 0x32}", e <<< 8)))

/-- `EFFECT_MAP_0x56` of model_0x56.py, as a literal table.  The theorem
`EFFECT_MAP_0x56_faithful` proves it equal to the Python construction
`dictBuild effectAssignments`. -/
def EFFECT_MAP_0x56 : List (String × Nat) :=
  [ ("Effect 1", 1), ("Effect 2", 2), ("Effect 3", 3), ("Effect 4", 4), ("Effect 5", 5),
    ("Effect 6", 6), ("Effect 7", 7), ("Effect 8", 8), ("Effect 9", 9), ("Effect 10", 10),
    ("Effect 11", 11), ("Effect 12", 12), ("Effect 13", 13), ("Effect 14", 14),
    ("Effect 15", 15), ("Effect 16", 16), ("Effect 17", 17), ("Effect 18", 18),
    ("Effect 19", 19), ("Effect 20", 20), ("Effect 21", 21), ("Effect 22", 22),
    ("Effect 23", 23), ("Effect 24", 24), ("Effect 25", 25), ("Effect 26", 26),
    ("Effect 27", 27), ("Effect 28", 28), ("Effect 29", 29), ("Effect 30", 30),
    ("Effect 31", 31), ("Effect 32", 32), ("Effect 33", 33), ("Effect 34", 34),
    ("Effect 35", 35), ("Effect 36", 36), ("Effect 37", 37), ("Effect 38", 38),
    ("Effect 39", 39), ("Effect 40", 40), ("Effect 41", 41), ("Effect 42", 42),
    ("Effect 43", 43), ("Effect 44", 44), ("Effect 45", 45), ("Effect 46", 46),
    ("Effect 47", 47), ("Effect 48", 48), ("Effect 49", 49), ("Effect 50", 50),
    ("Effect 51", 51), ("Effect 52", 52), ("Effect 53", 53), ("Effect 54", 54),
    ("Effect 55", 55), ("Effect 56", 56), ("Effect 57", 57), ("Effect 58", 58),
    ("Effect 59", 59), ("Effect 60", 60), ("Effect 61", 61), ("Effect 62", 62),
    ("Effect 63", 63), ("Effect 64", 64), ("Effect 65", 65), ("Effect 66", 66),
    ("Effect 67", 67), ("Effect 68", 68), ("Effect 69", 69), ("Effect 70", 70),
    ("Effect 71", 71), ("Effect 72", 72), ("Effect 73", 73), ("Effect 74", 74),
    ("Effect 75", 75), ("Effect 76", 76), ("Effect 77", 77), ("Effect 78", 78),
    ("Effect 79", 79), ("Effect 80", 80), ("Effect 81", 81), ("Effect 82", 82),
    ("Effect 83", 83), ("Effect 84", 84), ("Effect 85", 85), ("Effect 86", 86),
    ("Effect 87", 87), ("Effect 88", 88), ("Effect 89", 89), ("Effect 90", 90),
    ("Effect 91", 91), ("Effect 92", 92), ("Effect 93", 93), ("Effect 94", 94),
    ("Effect 95", 95), ("Effect 96", 96), ("Effect 97", 97), ("Effect 98", 98),
    ("Effect 99", 99), ("Cycle Modes", 255), ("Static Effect 1", 256), ("Static Effect 2", 512),
    ("Static Effect 3", 768), ("Static Effect 4", 1024), ("Static Effect 5", 1280),
    ("Static Effect 6", 1536), ("Static Effect 7", 1792), ("Static Effect 8", 2048),
    ("Static Effect 9", 2304), ("Static Effect 10", 2560), ("Sound Reactive 1", 13056),
    ("Sound Reactive 2", 13312), ("Sound Reactive 3", 13568), ("Sound Reactive 4", 13824),
    ("Sound Reactive 5", 14080), ("Sound Reactive 6", 14336), ("Sound Reactive 7", 14592),
    ("Sound Reactive 8", 14848), ("Sound Reactive 9", 15104), ("Sound Reactive 10", 15360),
    ("Sound Reactive 11", 15616), ("Sound Reactive 12", 15872), ("Sound Reactive 13", 16128),
    ("Sound Reactive 14", 16384), ("Sound Reactive 15", 16640)]

/-- `EFFECT_LIST_0x56 = sorted(EFFECT_MAP_0x56)` of model_0x56.py: the
keys of the effect map in sorted order.  (Only its membership is ever
used, via `List.mem_mergeSort`.) -/
def EFFECT_LIST_0x56 : List String :=
  (EFFECT_MAP_0x56.map Prod.fst).mergeSort (fun a b => decide (a ≤ b))

/-- Membership in `EFFECT_LIST_0x56` is membership among the keys of
`EFFECT_MAP_0x56`. -/
theorem mem_EFFECT_LIST_iff (s : String) :
    s ∈ EFFECT_LIST_0x56 ↔ s ∈ EFFECT_MAP_0x56.map Prod.fst :=
  List.mem_mergeSort

/-- `EFFECT_ID_TO_NAME_0x56 = {v: k for k, v in EFFECT_MAP_0x56.items()}`
of model_0x56.py: the inverted table (see
`EFFECT_ID_TO_NAME_0x56_faithful`). -/
def EFFECT_ID_TO_NAME_0x56 : List (Nat × String) :=
  EFFECT_MAP_0x56.map (fun p => (p.2, p.1))

/-- The effect codes in the table are strictly ascending, hence pairwise
distinct. -/
theorem effectCodesNodup : (EFFECT_MAP_0x56.map Prod.snd).Nodup := by
  have hasc : strictAscB (EFFECT_MAP_0x56.map Prod.snd) = true := by decide
  exact (strictAscB_pairwise _ hasc).imp (fun hab => ne_of_lt hab)

/-- Reads a decimal digit string as a natural number. -/
def digitsToNat (cs : List Char) : Nat :=
  cs.foldl (fun n c => n * 10 + (c.toNat - 48)) 0

/-- Recovers the numeric effect code from an effect name; used only to
transport distinctness of the codes back to the names. -/
def nameCode (s : String) : Nat :=
  let cs := s.data
  if cs.take 14 = "Static Effect ".data then (digitsToNat (cs.drop 14)) <<< 8
  else if cs.take 15 = "Sound Reactive ".data then
    ((digitsToNat (cs.drop 15)) + 0x32) <<< 8
  else if s = "Cycle Modes" then 255
  else digitsToNat (cs.drop 7)

/-- The names in the effect table are pairwise distinct (each name
determines its code, and the codes are distinct). -/
theorem effectNamesNodup : (EFFECT_MAP_0x56.map Prod.fst).Nodup := by
  have hg : EFFECT_MAP_0x56.map (fun p => nameCode p.1)
      = EFFECT_MAP_0x56.map Prod.snd := by decide
  have h1 : (EFFECT_MAP_0x56.map Prod.fst).map nameCode
      = EFFECT_MAP_0x56.map Prod.snd := by
    rw [List.map_map]; exact hg
  have h2 : ((EFFECT_MAP_0x56.map Prod.fst).map nameCode).Nodup := by
    rw [h1]; exact effectCodesNodup
  exact h2.of_map

/-- The literal `EFFECT_MAP_0x56` equals the Python loop construction. -/
theorem EFFECT_MAP_0x56_faithful :
    dictBuild effectAssignments = EFFECT_MAP_0x56 := by
  have hassign : effectAssignments = EFFECT_MAP_0x56 := by decide
  rw [hassign]
  exact dictBuild_eq_self _ effectNamesNodup

/-- The literal `EFFECT_ID_TO_NAME_0x56` equals the Python dict
comprehension `{v: k for k, v in EFFECT_MAP_0x56.items()}`: since the
codes are pairwise distinct, inverting the pairs never overwrites. -/
theorem EFFECT_ID_TO_NAME_0x56_faithful :
    EFFECT_MAP_0x56.foldl (fun m p => dictInsert m p.2 p.1) []
      = EFFECT_ID_TO_NAME_0x56 := by
  have h1 : EFFECT_MAP_0x56.foldl (fun m p => dictInsert m p.2 p.1) []
      = dictBuild (EFFECT_MAP_0x56.map (fun p => (p.2, p.1))) := by
    rw [dictBuild, List.foldl_map]
  rw [h1, EFFECT_ID_TO_NAME_0x56]
  apply dictBuild_eq_self
  have h2 : (EFFECT_MAP_0x56.map (fun p => (p.2, p.1))).map Prod.fst
      = EFFECT_MAP_0x56.map Prod.snd := by
    rw [List.map_map]; rfl
  rw [h2]
  exact effectCodesNodup

/-- The keys of the inverted table are duplicate-free. -/
theorem effectIdKeysNodup : (EFFECT_ID_TO_NAME_0x56.map Prod.fst).Nodup := by
  rw [EFFECT_ID_TO_NAME_0x56, List.map_map]
  exact effectCodesNodup

/-- The plainly coded effect codes (`1..99` and `255`). -/
def plainEffectCodes : List Nat := (List.range' 1 99) ++ [255]

/-- The "static" effect codes (`e <<< 8` for `e ∈ 1..10`). -/
def staticEffectCodes : List Nat := (List.range' 1 10).map (fun e => e <<< 8)

/-- The sound-reactive effect codes (`(e+0x32) <<< 8` for `e ∈ 1..15`). -/
def soundEffectCodes : List Nat :=
  (List.range' (1 + 0x32) 15).map (fun e => e <<< 8)

/-- C1: for every effect name in `EFFECT_MAP_0x56`, encoding the name to
its numeric code (`EFFECT_MAP_0x56` lookup) and decoding that code back
through `EFFECT_ID_TO_NAME_0x56` yields the original name, and the three
numeric code ranges (plain, static `value <<< 8`, sound-reactive
`(value+0x32) <<< 8`) are pairwise disjoint. -/
theorem c1_effect_roundtrip_and_ranges_disjoint :
    (∀ p ∈ EFFECT_MAP_0x56,
        dictGet EFFECT_MAP_0x56 p.1 = some p.2 ∧
        dictGet EFFECT_ID_TO_NAME_0x56 p.2 = some p.1) ∧
    (∀ c ∈ plainEffectCodes, c ∉ staticEffectCodes ∧ c ∉ soundEffectCodes) ∧
    (∀ c ∈ staticEffectCodes, c ∉ soundEffectCodes) := by
  refine ⟨?_, ?_, ?_⟩
  · intro p hp
    refine ⟨dictGet_mem _ effectNamesNodup p hp, ?_⟩
    have hmem : (p.2, p.1) ∈ EFFECT_ID_TO_NAME_0x56 := by
      rw [EFFECT_ID_TO_NAME_0x56]
      exact List.mem_map_of_mem (fun q => (q.2, q.1)) hp
    exact dictGet_mem _ effectIdKeysNodup (p.2, p.1) hmem
  · decide
  · decide

/-- Witness for C1 at concrete inputs: the pair `("Static Effect 3", 768)`
round-trips, and the plain code `255` is in neither shifted range. -/
theorem c1_witness :
    (dictGet EFFECT_MAP_0x56 "Static Effect 3" = some 768 ∧
      dictGet EFFECT_ID_TO_NAME_0x56 768 = some "Static Effect 3") ∧
    (255 ∉ staticEffectCodes ∧ 255 ∉ soundEffectCodes) :=
  ⟨c1_effect_roundtrip_and_ranges_disjoint.1 ("Static Effect 3", 768) (by decide),
    c1_effect_roundtrip_and_ranges_disjoint.2.1 255 (by decide)⟩

/-! ## Device state (`DefaultModelAbstraction` / `Model0x56` attributes)

Only constant attributes that no claim mentions (icons, UUID lists,
canned packet templates, capability sets) are omitted; every mutable
field named by a claim is present.  `segments` lives on the parent
`LEDNETWFInstance` and is reached through the `_parent_instance`
back-pointer; `hasParent` models `hasattr(self, '_parent_instance')`.
`priv_color_mode` models the separate `_color_mode` attribute that the
`0x62` branch of `Model0x56.__init__` writes (distinct from
`color_mode`).  `chip_type`/`color_order` store the raw numeric value of
the `const.py` enum member. -/
structure DeviceState where
  fw_major : Nat
  fw_minor : String
  manu_data : List Nat
  is_on : Bool
  led_count : Option Nat
  chip_type : Option Nat
  color_order : Option Nat
  segments : Option Nat
  hasParent : Bool
  brightness : Option ℚ
  hs_color : ℚ × ℚ
  effect : String
  effect_speed : Option ℤ
  color_mode : ColorMode
  color_temperature_kelvin : Option ℚ
  priv_color_mode : Option ColorMode
  bg_color : Nat × Nat × Nat
deriving DecidableEq, Repr

/-- Python `l[i]` on a list/bytearray: `IndexError` when out of range
(no negative indices are used by the embedded code). -/
def pyGet (l : List Nat) (i : Nat) : Except PyErr Nat :=
  match l.get? i with
  | some v => Except.ok v
  | none => Except.error PyErr.indexError

/-- Python `EFFECT_ID_TO_NAME_0x56[code]`: `KeyError` when absent. -/
def idToName (code : Nat) : Except PyErr String :=
  match dictGet EFFECT_ID_TO_NAME_0x56 code with
  | some s => Except.ok s
  | none => Except.error PyErr.keyError

/-- Python `int(q)` on a float: truncation toward zero. -/
def pyInt (q : ℚ) : ℤ := if 0 ≤ q then q.floor else q.ceil

/-- On non-negative arguments `pyInt` is.the floor. -/
theorem pyInt_eq_floor (q : ℚ) (h : 0 ≤ q) : pyInt q = ⌊q⌋ := by
  rw [pyInt, if_pos h, Rat.floor_def' q, Rat.floor_def]

/-- `colorsys.hsv_to_rgb` over exact rationals. -/
def hsv_to_rgb_frac (h s v : ℚ) : ℚ × ℚ × ℚ :=
  if s = 0 then (v, v, v)
  else
    let i : ℤ := pyInt (h * 6)
    let f : ℚ := h * 6 - (i : ℚ)
    let p : ℚ := v * (1 - s)
    let q : ℚ := v * (1 - s * f)
    let t : ℚ := v * (1 - s * (1 - f))
    let im := i % 6
    if im = 0 then (v, t, p)
    else if im = 1 then (q, v, p)
    else if im = 2 then (p, v, t)
    else if im = 3 then (p, q, v)
    else if im = 4 then (t, p, v)
    else (v, p, q)

/-- `colorsys.rgb_to_hsv` over exact rationals (`% 1.0` on a
non-negative float is `x - ⌊x⌋`). -/
def rgb_to_hsv_frac (r g b : ℚ) : ℚ × ℚ × ℚ :=
  let maxc := max r (max g b)
  let minc := min r (min g b)
  let rangec := maxc - minc
  let v := maxc
  if minc = maxc then (0, 0, v)
  else
    let s := rangec / maxc
    let rc := (maxc - r) / rangec
    let gc := (maxc - g) / rangec
    let bc := (maxc - b) / rangec
    let h := if r = maxc then bc - gc
             else if g = maxc then 2 + rc - bc
             else 4 + gc - rc
    (h / 6 - ((h / 6 : ℚ).floor : ℚ), s, v)

/-- `DefaultModelAbstraction.rgb_to_hsv`: RGB bytes to
`[int(h*360), int(s*100), int(v*255)]`; raises `IndexError` when given
fewer than three components (it is sometimes called on a short slice). -/
def rgb_to_hsv (rgb : List Nat) : Except PyErr (ℤ × ℤ × ℤ) := do
  let r ← pyGet rgb 0
  let g ← pyGet rgb 1
  let b ← pyGet rgb 2
  let hsv := rgb_to_hsv_frac ((r : ℚ) / 255) ((g : ℚ) / 255) ((b : ℚ) / 255)
  pure (pyInt (hsv.1 * 360), pyInt (hsv.2.1 * 100), pyInt (hsv.2.2 * 255))

/-- `DefaultModelAbstraction.hsv_to_rgb`: home-assistant-range HSV to an
RGB list `[int(r*255), int(g*255), int(b*255)]`. -/
def hsv_to_rgb (hsv : ℚ × ℚ × ℚ) : List ℤ :=
  let rgb := hsv_to_rgb_frac (hsv.1 / 360) (hsv.2.1 / 100) (hsv.2.2 / 255)
  [pyInt (rgb.1 * 255), pyInt (rgb.2.1 * 255), pyInt (rgb.2.2 * 255)]

/-- Two uppercase hex digits, as in the f-string `{b:02X}`. -/
def hex2 (n : Nat) : String :=
  let digits := "0123456789ABCDEF".data
  String.mk [digits.getD ((n / 16) % 16) '0', digits.getD (n % 16) '0']

/-- `Model0x56.__init__` (including `DefaultModelAbstraction.__init__`
and `process_manu_data`): builds the initial `DeviceState` from the
manufacturer-data payload (`none` models absent/empty manufacturer
data).  A constructor exception discards the object, so only the raised
error is returned. -/
def Model0x56_init (manu : Option (List Nat)) : Except PyErr DeviceState := do
  let (md, fw_major, fw_minor, led_count, is_on) ←
    match manu with
    | some md => do
        let b0 ← pyGet md 0
        let b8 ← pyGet md 8
        let b9 ← pyGet md 9
        let b10 ← pyGet md 10
        let b24 ← pyGet md 24
        let b14 ← pyGet md 14
        pure (md, b0, hex2 b8 ++ hex2 b9 ++ "." ++ hex2 b10,
          some b24, b14 == 0x23)
    | none => pure (List.replicate 25 0, 0, "Unknown version", none, false)
  let st0 : DeviceState :=
    { fw_major := fw_major, fw_minor := fw_minor, manu_data := md,
      is_on := is_on, led_count := led_count,
      chip_type := none, color_order := none,
      segments := none, hasParent := false,
      brightness := none, hs_color := (0, 100),
      effect := EFFECT_OFF, effect_speed := some 50,
      color_mode := ColorMode.unknown, color_temperature_kelvin := none,
      priv_color_mode := none, bg_color := (0, 0, 0) }
  let b15 ← pyGet md 15
  if b15 = 0x61 then do
    let r ← pyGet md 18
    let g ← pyGet md 19
    let b ← pyGet md 20
    let hsv ← rgb_to_hsv [r, g, b]
    let st1 := { st0 with
      hs_color := ((hsv.1 : ℚ), (hsv.2.1 : ℚ)),
      brightness := some (hsv.2.2 : ℚ), color_mode := ColorMode.hs }
    let b16 ← pyGet md 16
    if b16 ≠ 0xf0 then do
      let b17 ← pyGet md 17
      let st2 := { st1 with effect_speed := some (b17 : ℤ) }
      if 0x01 ≤ b16 ∧ b16 ≤ 0x0a then do
        let name ← idToName (b16 <<< 8)
        pure { st2 with effect := name }
      else
        pure { st2 with effect := EFFECT_OFF }
    else
      pure st1
  else if b15 = 0x62 then do
    let b16 ← pyGet md 16
    let name ← idToName ((b16 + 0x32) <<< 8)
    pure { st0 with
      priv_color_mode := some ColorMode.brightnessMode,
      effect := name }
  else if b15 = 0x25 then do
    let b16 ← pyGet md 16
    let name ← idToName b16
    let b17 ← pyGet md 17
    let b18 ← pyGet md 18
    pure { st0 with
      effect := name, effect_speed := some (b17 : ℤ),
      brightness := some ((b18 * 255) / 100 : Nat),
      color_mode := ColorMode.brightnessMode }
  else
    pure st0

/-! ## Packet construction helpers -/

/-- Python `bytearray[i] = v` for an integer `v`: `ValueError` unless
`0 ≤ v < 256`.  (The indices used by the embedded code are always in
range, so only the value check can fail.) -/
def setByteChecked (l : List Nat) (i : Nat) (v : ℤ) : Except PyErr (List Nat) :=
  if 0 ≤ v ∧ v < 256 then Except.ok (l.set i v.toNat)
  else Except.error PyErr.valueError

/-- Python `bytearray[i] = v` where `v` may be `None` (`TypeError`). -/
def setByteOpt (l : List Nat) (i : Nat) (v : Option ℤ) : Except PyErr (List Nat) :=
  match v with
  | none => Except.error PyErr.typeError
  | some z => setByteChecked l i z

/-- Python slice assignment `bytearray[i:i+len(vs)] = vs` (equal-length
slices only, as used by the code): each value must be a byte. -/
def setBytesChecked (l : List Nat) (i : Nat) (vs : List ℤ) :
    Except PyErr (List Nat) :=
  match vs with
  | [] => Except.ok l
  | v :: rest =>
    if 0 ≤ v ∧ v < 256 then setBytesChecked (l.set i v.toNat) (i + 1) rest
    else Except.error PyErr.valueError

/-- Python `sum(l[a:b]) & 0xFF`. -/
def checksum (l : List Nat) (a b : Nat) : Nat :=
  ((l.take b).drop a).sum &&& 0xFF

/-- `DefaultModelAbstraction.get_brightness_percent`:
`int(self.brightness * 100 / 255)`; `TypeError` when brightness is
unset (`None`). -/
def get_brightness_percent (st : DeviceState) : Except PyErr ℤ :=
  match st.brightness with
  | none => Except.error PyErr.typeError
  | some b => Except.ok (pyInt (b * 100 / 255))

/-- `DefaultModelAbstraction.get_rgb_color`:
`hsv_to_rgb((hs_color[0], hs_color[1], brightness))`; `TypeError` when
brightness is unset. -/
def get_rgb_color (st : DeviceState) : Except PyErr (List ℤ) :=
  match st.brightness with
  | none => Except.error PyErr.typeError
  | some b => Except.ok (hsv_to_rgb (st.hs_color.1, st.hs_color.2, b))

/-! ## State-updating decode helpers (`Model0x56`) -/

/-- `Model0x56.update_color_state`. -/
def update_color_state (st : DeviceState) (rgb : List Nat) :
    Except (PyErr × DeviceState) DeviceState :=
  match rgb_to_hsv rgb with
  | Except.error e => Except.error (e, st)
  | Except.ok hsv =>
    Except.ok { st with
      hs_color := ((hsv.1 : ℚ), (hsv.2.1 : ℚ)),
      brightness := some ((hsv.2.2 : ℚ)) }

/-- `Model0x56.update_color_state` when the argument may be `None`
(subscripting `None` inside `rgb_to_hsv` raises `TypeError`). -/
def update_color_state_opt (st : DeviceState) (rgb : Option (List Nat)) :
    Except (PyErr × DeviceState) DeviceState :=
  match rgb with
  | none => Except.error (PyErr.typeError, st)
  | some r => update_color_state st r

/-- `Model0x56.update_effect_state`.  The entry `LOGGER.debug` f-string
evaluates `brightness/255` eagerly, so a `None` brightness raises
`TypeError` before any branch runs.  Mode `0x62` catches `KeyError` and
falls back to `"Unknown"`; mode `0x25` does not. -/
def update_effect_state (st : DeviceState) (mode selected_effect : Nat)
    (rgb_color : Option (List Nat)) (effect_speed : Option ℤ)
    (brightness : Option ℚ) : Except (PyErr × DeviceState) DeviceState :=
  match brightness with
  | none => Except.error (PyErr.typeError, st)
  | some _ =>
    if mode = 0x61 then
      if selected_effect = 0xf0 then
        match update_color_state_opt st rgb_color with
        | Except.error e => Except.error e
        | Except.ok st1 =>
          Except.ok { st1 with
            effect := EFFECT_OFF, color_mode := ColorMode.hs,
            color_temperature_kelvin := none }
      else if 0x01 ≤ selected_effect ∧ selected_effect ≤ 0x0a then
        let st1 := { st with color_mode := ColorMode.hs }
        match dictGet EFFECT_ID_TO_NAME_0x56 (selected_effect <<< 8) with
        | none => Except.error (PyErr.keyError, st1)
        | some name =>
          let st2 := { st1 with effect := name, effect_speed := effect_speed }
          update_color_state_opt st2 rgb_color
      else Except.ok st
    else if mode = 0x62 then
      let scaled := (selected_effect + 0x32) <<< 8
      match dictGet EFFECT_ID_TO_NAME_0x56 scaled with
      | some name => Except.ok { st with effect := name }
      | none => Except.ok { st with effect := "Unknown" }
    else if mode = 0x25 then
      match dictGet EFFECT_ID_TO_NAME_0x56 selected_effect with
      | none => Except.error (PyErr.keyError, st)
      | some name =>
        Except.ok { st with
          effect := name, effect_speed := effect_speed,
          color_mode := ColorMode.brightnessMode }
    else Except.ok st

/-- Tags an exception from a sub-computation with the state at raise
time. -/
def orRaise {α : Type} (st : DeviceState) (x : Except PyErr α) :
    Except (PyErr × DeviceState) α :=
  match x with
  | Except.ok v => Except.ok v
  | Except.error e => Except.error (e, st)

/-! ## Command encoders (`Model0x56`) -/

/-- `Model0x56.set_color`: returns the mutated state and the RGB packet.
Mirrors the source line by line: state fields first, then the template
`00 00 80 00 00 0d 0e 0b 41 02 ff 00 00 00 00 00 32 00 00 f0 64` with
mode byte 0, RGB at 10..12, background at 13..15, speed at 16, and the
checksum `sum(packet[8:19]) & 0xFF` at 20 (always a byte, so that final
assignment cannot fail). -/
def set_color (st : DeviceState) (hs_color : ℚ × ℚ) (brightness : ℚ) :
    Except (PyErr × DeviceState) (DeviceState × List Nat) := do
  let st1 := { st with
    color_mode := ColorMode.hs, hs_color := hs_color,
    brightness := some brightness }
  let rgb := hsv_to_rgb (hs_color.1, hs_color.2, brightness)
  let t : List Nat :=
    [0x00, 0x00, 0x80, 0x00, 0x00, 0x0d, 0x0e, 0x0b, 0x41, 0x02, 0xff,
     0x00, 0x00, 0x00, 0x00, 0x00, 0x32, 0x00, 0x00, 0xf0, 0x64]
  let p0 := t.set 9 0
  let p1 ← orRaise st1 (setBytesChecked p0 10 rgb)
  let p2 ← orRaise st1 (setBytesChecked p1 13
    [(st1.bg_color.1 : ℤ), (st1.bg_color.2.1 : ℤ), (st1.bg_color.2.2 : ℤ)])
  let p3 ← orRaise st1 (setByteOpt p2 16 st1.effect_speed)
  pure (st1, p3.set 20 (checksum p3 8 19))

/-- `Model0x56.set_effect`: raises `ValueError` when the effect name is
not in `EFFECT_LIST_0x56`; otherwise encodes one of the three packet
shapes (static `0x0100..0x1100`, music `0x2100..0x4100`, plain). -/
def set_effect (st : DeviceState) (effect : String) (brightness : ℚ) :
    Except (PyErr × DeviceState) (DeviceState × List Nat) :=
  if effect ∈ EFFECT_LIST_0x56 then
    let st1 := { st with effect := effect, brightness := some brightness }
    match dictGet EFFECT_MAP_0x56 effect with
    | none => Except.error (PyErr.typeError, st1)
    | some effect_id =>
      if 0x0100 ≤ effect_id ∧ effect_id ≤ 0x1100 then do
        let id2 := effect_id >>> 8
        let t : List Nat :=
          [0x00, 0x00, 0x80, 0x00, 0x00, 0x0d, 0x0e, 0x0b, 0x41, 0x02, 0xff,
           0x00, 0x00, 0x00, 0x00, 0x00, 0x32, 0x00, 0x00, 0xf0, 0x64]
        let p0 ← orRaise st1 (setByteChecked t 9 (id2 : ℤ))
        let rgb ← orRaise st1 (get_rgb_color st1)
        let p1 ← orRaise st1 (setBytesChecked p0 10 rgb)
        let p2 ← orRaise st1 (setBytesChecked p1 13
          [(st1.bg_color.1 : ℤ), (st1.bg_color.2.1 : ℤ), (st1.bg_color.2.2 : ℤ)])
        let p3 ← orRaise st1 (setByteOpt p2 16 st1.effect_speed)
        pure (st1, p3.set 20 (checksum p3 8 19))
      else if 0x2100 ≤ effect_id ∧ effect_id ≤ 0x4100 then do
        let id2 := (effect_id >>> 8) - 0x32
        let t : List Nat :=
          [0x00, 0x22, 0x80, 0x00, 0x00, 0x0d, 0x0e, 0x0b, 0x73, 0x00, 0x26,
           0x01, 0xff, 0x00, 0x00, 0xff, 0x00, 0x00, 0x20, 0x1a, 0xd2]
        let p0 := t.set 9 1
        let p1 ← orRaise st1 (setByteChecked p0 11 (id2 : ℤ))
        let rgb ← orRaise st1 (get_rgb_color st1)
        let p2 ← orRaise st1 (setBytesChecked p1 12 rgb)
        let p3 ← orRaise st1 (setBytesChecked p2 15
          [(st1.bg_color.1 : ℤ), (st1.bg_color.2.1 : ℤ), (st1.bg_color.2.2 : ℤ)])
        let p4 ← orRaise st1 (setByteOpt p3 18 st1.effect_speed)
        let bp ← orRaise st1 (get_brightness_percent st1)
        let p5 ← orRaise st1 (setByteChecked p4 19 bp)
        pure (st1, p5.set 20 (checksum p5 8 19))
      else do
        let t : List Nat :=
          [0x00, 0x00, 0x80, 0x00, 0x00, 0x05, 0x06, 0x0b, 0x42, 0x01, 0x32,
           0x64, 0xd9]
        let st2 := { st1 with color_mode := ColorMode.brightnessMode }
        let p0 ← orRaise st2 (setByteChecked t 9 (effect_id : ℤ))
        let p1 ← orRaise st2 (setByteOpt p0 10 st2.effect_speed)
        let bp ← orRaise st2 (get_brightness_percent st2)
        let p2 ← orRaise st2 (setByteChecked p1 11 bp)
        pure (st2, p2.set 12 (checksum p2 8 11))
  else
    Except.error (PyErr.valueError, st)

/-! ## Notification decoding (`Model0x56.notification_handler`) -/

/-- External collaborators of the decoder that are not code under
verification, passed as parameters so theorems hold for any faithful
instantiation:
* `decode` — Python's `bytes.decode("utf-8", errors="ignore")`, as a map
  from the byte list to the code-point list of the resulting `str`.  On
  ASCII-only inputs it is the identity, which is what witnesses use.
* `chipValid`/`orderValid` — Modelled from the spec: `const.py` (not
  under src/) defines the `LedTypes_StripLight` and `ColorOrdering`
  enums ("chip_type: enum per vendor chip; color_order: enum over RGB
  permutations"); calling an enum class on a non-member value raises
  `ValueError`, so each is modelled by its set of valid raw values. -/
structure Externals where
  decode : List Nat → List Nat
  chipValid : Nat → Bool
  orderValid : Nat → Bool

/-- Enum construction `Enum(v)`: the member when valid, else `ValueError`. -/
def enumCtor (valid : Nat → Bool) (v : Nat) : Except PyErr Nat :=
  if valid v then Except.ok v else Except.error PyErr.valueError

/-- Value of an ASCII hex digit. -/
def hexDigitVal? (c : Nat) : Option Nat :=
  if 0x30 ≤ c ∧ c ≤ 0x39 then some (c - 0x30)
  else if 0x41 ≤ c ∧ c ≤ 0x46 then some (c - 0x37)
  else if 0x61 ≤ c ∧ c ≤ 0x66 then some (c - 0x57)
  else none

/-- Python `bytearray.fromhex`: pairs of hex digits, spaces allowed
between pairs, `ValueError` otherwise. -/
def fromHex : List Nat → Except PyErr (List Nat)
  | [] => Except.ok []
  | c :: rest =>
    if c = 0x20 then fromHex rest
    else
      match hexDigitVal? c, rest with
      | some hi, c2 :: rest2 =>
        (match hexDigitVal? c2 with
         | some lo =>
           (match fromHex rest2 with
            | Except.ok l => Except.ok ((hi * 16 + lo) :: l)
            | Except.error e => Except.error e)
         | none => Except.error PyErr.valueError)
      | _, _ => Except.error PyErr.valueError

/-- Python `s.rfind(chr(c), 0, stop)`: highest index below `stop`
holding code point `c`, or `-1`. -/
def rfindChar (s : List Nat) (c : Nat) (stop : Nat) : ℤ :=
  ((List.range stop).filter (fun i => s.get? i == some c)).foldl
    (fun _ i => (i : ℤ)) (-1)

/-- The LED-settings branch of the binary (`fw_major = 0x80`) decode
path: bytes 5..7 matched `0b 0c 15`. -/
def handleLedBinary (ext : Externals) (st : DeviceState) (data : List Nat) :
    Except (PyErr × DeviceState) DeviceState := do
  let b11 ← orRaise st (pyGet data 11)
  let st1 := { st with led_count := some b11 }
  let b14 ← orRaise st1 (pyGet data 14)
  let chip ← orRaise st1 (enumCtor ext.chipValid b14)
  let st2 := { st1 with chip_type := some chip }
  let b15 ← orRaise st2 (pyGet data 15)
  let ord ← orRaise st2 (enumCtor ext.orderValid b15)
  let st3 := { st2 with color_order := some ord }
  if st3.hasParent then do
    let b13 ← orRaise st3 (pyGet data 13)
    pure { st3 with segments := some b13 }
  else
    pure st3

/-- The status branch of the binary decode path: bytes 5..6 matched
`0e 0f`.  Hands mode/effect/speed/RGB to `update_effect_state`, with
`brightness=data[15]`. -/
def handleStatusBinary (st : DeviceState) (data : List Nat) :
    Except (PyErr × DeviceState) DeviceState := do
  let b10 ← orRaise st (pyGet data 10)
  let st1 := { st with is_on := b10 == 0x23 }
  let b11 ← orRaise st1 (pyGet data 11)
  let b12 ← orRaise st1 (pyGet data 12)
  let b13 ← orRaise st1 (pyGet data 13)
  let b14 ← orRaise st1 (pyGet data 14)
  let b15 ← orRaise st1 (pyGet data 15)
  let b16 ← orRaise st1 (pyGet data 16)
  update_effect_state st1 b11 b12 (some [b14, b15, b16])
    (some (b13 : ℤ)) (some (b15 : ℚ))

/-- The `payload[0] = 0x81` status branch of the text decode path. -/
def handleStatus81 (st : DeviceState) (payload : List Nat) :
    Except (PyErr × DeviceState) DeviceState := do
  let power ← orRaise st (pyGet payload 2)
  let mode ← orRaise st (pyGet payload 3)
  let sel ← orRaise st (pyGet payload 4)
  let b12 ← orRaise st (pyGet payload 12)
  let stA := { st with led_count := some b12, is_on := power == 0x23 }
  if mode = 0x61 then
    if sel = 0xf0 then do
      let rgb := (payload.drop 6).take 3
      let stB := { stA with
        effect := EFFECT_OFF, color_mode := ColorMode.hs,
        color_temperature_kelvin := none }
      update_color_state stB rgb
    else if 0x01 ≤ sel ∧ sel ≤ 0x0a then do
      let stB := { stA with color_mode := ColorMode.hs }
      let name ← orRaise stB (idToName (sel <<< 8))
      let stC := { stB with effect := name }
      let b5 ← orRaise stC (pyGet payload 5)
      let stD := { stC with effect_speed := some (b5 : ℤ) }
      let hsv ← orRaise stD (rgb_to_hsv ((payload.drop 6).take 3))
      pure { stD with
        hs_color := ((hsv.1 : ℚ), (hsv.2.1 : ℚ)),
        brightness := some ((hsv.2.2 : ℚ)) }
    else
      pure stA
  else if mode = 0x62 then
    match dictGet EFFECT_ID_TO_NAME_0x56 ((sel + 0x32) <<< 8) with
    | some name => pure { stA with effect := name }
    | none => pure { stA with effect := "Unknown" }
  else if mode = 0x25 then do
    let name ← orRaise stA (idToName sel)
    let stB := { stA with effect := name }
    let b5 ← orRaise stB (pyGet payload 5)
    let stC := { stB with
      effect_speed := some (b5 : ℤ),
      color_mode := ColorMode.brightnessMode }
    let b6 ← orRaise stC (pyGet payload 6)
    pure { stC with brightness := some (((b6 * 255) / 100 : Nat) : ℚ) }
  else
    pure stA

/-- The `payload[0] = 0x0F` new-settings branch of the text decode
path (a `0x44` sub-packet updates the background colour). -/
def handleSettings0F (st1 : DeviceState) (payload : List Nat) :
    Except (PyErr × DeviceState) DeviceState := do
  let b1 ← orRaise st1 (pyGet payload 1)
  if b1 = 0x44 then do
    let _ ← orRaise st1 (pyGet payload 2)
    let b3 ← orRaise st1 (pyGet payload 3)
    let b4 ← orRaise st1 (pyGet payload 4)
    let b5 ← orRaise st1 (pyGet payload 5)
    let b6 ← orRaise st1 (pyGet payload 6)
    let b7 ← orRaise st1 (pyGet payload 7)
    let b8 ← orRaise st1 (pyGet payload 8)
    let _ := (b3, b4, b5)
    let _ ← orRaise st1 (pyGet payload 9)
    pure { st1 with bg_color := (b6, b7, b8) }
  else
    pure st1

/-- The `payload[1] = 0x63` LED-settings branch of the text decode
path. -/
def handleLedText (ext : Externals) (st2 : DeviceState)
    (payload : List Nat) : Except (PyErr × DeviceState) DeviceState := do
  let b2 ← orRaise st2 (pyGet payload 2)
  let b3 ← orRaise st2 (pyGet payload 3)
  let b5 ← orRaise st2 (pyGet payload 5)
  let st3 := { st2 with led_count := some ((b2 * 256 + b3) * b5) }
  let st4 := if st3.hasParent then { st3 with segments := some b5 } else st3
  let b6 ← orRaise st4 (pyGet payload 6)
  let chip ← orRaise st4 (enumCtor ext.chipValid b6)
  let st5 := { st4 with chip_type := some chip }
  let b7 ← orRaise st5 (pyGet payload 7)
  let ord ← orRaise st5 (enumCtor ext.orderValid b7)
  pure { st5 with color_order := some ord }

/-- `Model0x56.notification_handler`.  For `fw_major = 0x80` the frame
is binary, discriminated on bytes 5..7; otherwise the frame is a text
envelope whose payload sits between the last two double quotes and is
hex-decoded before being discriminated on `payload[0]`/`payload[1]`
(the latter checks run in sequence, not as an if/elif chain).  Frames
that fail the discrimination return `None` (state unchanged). -/
def notification_handler (ext : Externals) (st : DeviceState)
    (data : List Nat) : Except (PyErr × DeviceState) DeviceState := do
  if st.fw_major = 0x80 then
    if (data.drop 5).take 3 = [0x0b, 0x0c, 0x15] then
      handleLedBinary ext st data
    else if (data.drop 5).take 2 = [0x0e, 0x0f] then
      handleStatusBinary st data
    else
      pure st
  else do
    let s := ext.decode data
    let lastQ := rfindChar s 0x22 s.length
    if lastQ > 0 then do
      let firstQ := rfindChar s 0x22 lastQ.toNat
      if firstQ > 0 then do
        let payloadStr := (s.take lastQ.toNat).drop (firstQ.toNat + 1)
        let payload ← orRaise st (fromHex payloadStr)
        let b0 ← orRaise st (pyGet payload 0)
        let st1 ← if b0 = 0x81 then handleStatus81 st payload else pure st
        let st2 ← if b0 = 0x0F then handleSettings0F st1 payload else pure st1
        let b1 ← orRaise st2 (pyGet payload 1)
        if b1 = 0x63 then handleLedText ext st2 payload else pure st2
      else
        pure st
    else
      pure st

/-! ## Session controller (`lednetwf.py`) -/

/-- `DEFAULT_ATTEMPTS` of lednetwf.py. -/
def DEFAULT_ATTEMPTS : Nat := 3

/-- `BLEAK_BACKOFF_TIME` of lednetwf.py. -/
def BLEAK_BACKOFF_TIME : Nat := 3

/-- `LEDNETWFInstance._write`: on `None` data it returns at once —
before `_ensure_connected`, before the counter logic and before any
transmission.  Otherwise it resets the counter when it exceeds 65535,
stamps the counter big-endian into the frame's first two bytes,
increments the counter and hands the frame to
`_write_while_connected`.  Result: (new packet counter, whether
`_ensure_connected` ran, frame handed to the transport).  (Every caller
passes a fixed template of at least 13 bytes, so the two header
assignments are always in range.) -/
def write (counter : Nat) (data : Option (List Nat)) :
    Nat × Bool × Option (List Nat) :=
  match data with
  | none => (counter, false, none)
  | some d =>
    let c := if counter > 65535 then 0 else counter
    let d1 := (d.set 0 ((0xFF00 &&& c) >>> 8)).set 1 (0x00FF &&& c)
    (c + 1, true, some d1)

/-- The packet counter after `n` consecutive `_write` calls with
non-`None` data, starting from the freshly initialised counter 0. -/
def counterAfter : Nat → Nat
  | 0 => 0
  | n + 1 => (write (counterAfter n) (some [0, 0])).1

/-- The retry decorator's classification of one attempt of the wrapped
command: it returns a value, or raises `BleakNotFoundError`, a
backoff-worthy `BleakDBusError` (`RETRY_BACKOFF_EXCEPTIONS`), or another
recoverable transport error (`BLEAK_EXCEPTIONS`).  Exceptions outside
these classes propagate out of the decorator unchanged and are not part
of its contract. -/
inductive AttemptOutcome where
  | success : Nat → AttemptOutcome
  | notFound
  | dbusErr
  | transportErr
deriving DecidableEq, Repr

/-- What `retry_bluetooth_connection_error` does overall. -/
inductive RetryResult where
  | ok : Nat → RetryResult
  | raised : AttemptOutcome → RetryResult
  | noneReturn
deriving DecidableEq, Repr

/-- The loop body of `retry_bluetooth_connection_error`, from a given
attempt index with the remaining loop iterations as fuel (the Python
`for attempt in range(attempts)` loop).  Returns the backoff sleeps
performed (in order), the number of calls made to the wrapped function,
and the outcome.  `BleakNotFoundError` re-raises at once;
`BleakDBusError` sleeps `BLEAK_BACKOFF_TIME` then retries unless
`attempt >= max_attempts`; other `BLEAK_EXCEPTIONS` retry without
sleeping; at `max_attempts` the error is re-raised. -/
def retryGo (f : Nat → AttemptOutcome) :
    Nat → Nat → List Nat × Nat × RetryResult
  | 0, _ => ([], 0, RetryResult.noneReturn)
  | fuel + 1, attempt =>
    match f attempt with
    | AttemptOutcome.success v => ([], 1, RetryResult.ok v)
    | AttemptOutcome.notFound => ([], 1, RetryResult.raised AttemptOutcome.notFound)
    | AttemptOutcome.dbusErr =>
      if attempt ≥ DEFAULT_ATTEMPTS - 1 then
        ([], 1, RetryResult.raised AttemptOutcome.dbusErr)
      else
        let r := retryGo f fuel (attempt + 1)
        (BLEAK_BACKOFF_TIME :: r.1, r.2.1 + 1, r.2.2)
    | AttemptOutcome.transportErr =>
      if attempt ≥ DEFAULT_ATTEMPTS - 1 then
        ([], 1, RetryResult.raised AttemptOutcome.transportErr)
      else
        let r := retryGo f fuel (attempt + 1)
        (r.1, r.2.1 + 1, r.2.2)

/-- `retry_bluetooth_connection_error` applied to a wrapped command
whose `i`-th attempt behaves as `f i`. -/
def retry (f : Nat → AttemptOutcome) : List Nat × Nat × RetryResult :=
  retryGo f DEFAULT_ATTEMPTS 0

/-- `LEDNETWFInstance.set_effect_speed`: clamps the speed to `[0, 100]`,
stores it on the model interface, and returns without dispatching any
packet when the current effect is the `EFFECT_OFF` sentinel (otherwise
it dispatches `set_effect(self.effect, self.brightness)`, indicated
here by the boolean). -/
def set_effect_speed (st : DeviceState) (speed : ℤ) : DeviceState × Bool :=
  let s := max 0 (min 100 speed)
  let st1 := { st with effect_speed := some s }
  if st1.effect = EFFECT_OFF then (st1, false) else (st1, true)

/-! ## Claim theorems -/

/-- A concrete reachable-looking device state used by witnesses. -/
def sampleState : DeviceState :=
  { fw_major := 0x56, fw_minor := "", manu_data := List.replicate 25 0,
    is_on := false, led_count := some 30, chip_type := none,
    color_order := none, segments := none, hasParent := true,
    brightness := some 200, hs_color := (0, 100), effect := "off",
    effect_speed := some 50, color_mode := ColorMode.hs,
    color_temperature_kelvin := none, priv_color_mode := none,
    bg_color := (0, 0, 0) }

/-- C9: `_write` with `None` data is a complete no-op at the public
interface: the packet counter is unchanged, `_ensure_connected` is
never invoked, and no bytes are handed to the transport. -/
theorem c9_write_none_noop (counter : Nat) :
    write counter none = (counter, false, none) := rfl

/-- C10: `set_effect_speed` stores exactly the clamped value
`max(0, min(100, speed))`, that value always lies in `[0, 100]`, and
when the current effect is the `"off"` sentinel no packet dispatch
happens (while the clamped speed is still stored). -/
theorem c10_set_effect_speed_clamps (st : DeviceState) (speed : ℤ) :
    (set_effect_speed st speed).1.effect_speed
      = some (max 0 (min 100 speed)) ∧
    (0 : ℤ) ≤ max 0 (min 100 speed) ∧ max 0 (min 100 speed) ≤ 100 ∧
    (st.effect = EFFECT_OFF →
      (set_effect_speed st speed).2 = false ∧
      (set_effect_speed st speed).1.effect_speed
        = some (max 0 (min 100 speed))) := by
  refine ⟨?_, le_max_left _ _, max_le (by norm_num) (min_le_left _ _), ?_⟩
  · simp only [set_effect_speed]
    split <;> rfl
  · intro h
    refine ⟨?_, ?_⟩
    · simp [set_effect_speed, h]
    · simp only [set_effect_speed]
      split <;> rfl

/-- Witness for C10 at a concrete input: speed 250 clamps to 100 and an
`"off"` effect suppresses the dispatch. -/
theorem c10_witness :
    (set_effect_speed sampleState 250).1.effect_speed = some 100 ∧
    (set_effect_speed sampleState 250).2 = false := by
  have h := c10_set_effect_speed_clamps sampleState 250
  have h2 := h.2.2.2 rfl
  refine ⟨?_, h2.1⟩
  have : (max 0 (min 100 (250 : ℤ))) = 100 := by decide
  rw [h.1, this]

/-- The packet counter after `n` writes equals `n`, for `n ≤ 65536`. -/
theorem counterAfter_eq (n : Nat) (hn : n ≤ 65536) : counterAfter n = n := by
  induction n with
  | zero => rfl
  | succ k ih =>
    rw [counterAfter, ih (by omega)]
    rw [write]
    dsimp only
    rw [if_neg (by omega)]

/-- High byte of the sequence stamp: `(0xFF00 & c) >> 8 = c / 256 % 256`. -/
theorem hiByte_eq (c : Nat) : (0xFF00 &&& c) >>> 8 = c / 256 % 256 := by
  apply Nat.eq_of_testBit_eq
  intro i
  rw [Nat.testBit_shiftRight, Nat.testBit_and]
  have h1 : (0xFF00 : Nat) = 255 <<< 8 := by norm_num [Nat.shiftLeft_eq]
  have h2 : c / 256 = c >>> 8 := by
    rw [Nat.shiftRight_eq_div_pow]
  have h3 : (256 : Nat) = 2 ^ 8 := by norm_num
  have h4 : (255 : Nat) = 2 ^ 8 - 1 := by norm_num
  rw [h1, Nat.testBit_shiftLeft, h2, h3, Nat.testBit_mod_two_pow,
    Nat.testBit_shiftRight, h4, Nat.testBit_two_pow_sub_one]
  have h5 : 8 + i - 8 = i := by omega
  rw [h5]
  simp [Nat.le_add_right]

/-- Low byte of the sequence stamp: `0x00FF & c = c % 256`. -/
theorem loByte_eq (c : Nat) : 0x00FF &&& c = c % 256 := by
  rw [Nat.land_comm]
  have h1 : (0x00FF : Nat) = 2 ^ 8 - 1 := by norm_num
  rw [h1, Nat.and_pow_two_sub_one_eq_mod]

/-- C5: starting from packet counter 0, the `n`-th `_write` with data
(`n = 0, 1, ..., 65536`) stamps the 16-bit big-endian sequence number
`n % 65536` into the frame's first two bytes: the first 65536 writes
carry 0..65535 in order with no gaps or early repeats, and the 65537th
(`n = 65536`) wraps to 0 exactly once.  The resulting counter matches
the counter trace. -/
theorem c5_packet_counter_wraps (n : Nat) (hn : n ≤ 65536) (d : List Nat)
    (hd : 2 ≤ d.length) :
    ∃ sent, (write (counterAfter n) (some d)).2.2 = some sent ∧
      (∃ hi lo, sent.get? 0 = some hi ∧ sent.get? 1 = some lo ∧
        256 * hi + lo = n % 65536) ∧
      (write (counterAfter n) (some d)).1 = counterAfter (n + 1) := by
  rw [counterAfter_eq n hn]
  rcases d with _ | ⟨a, d'⟩
  · exact absurd hd (by simp)
  rcases d' with _ | ⟨b, rest⟩
  · exact absurd hd (by simp)
  refine ⟨((0xFF00 &&& (if n > 65535 then 0 else n)) >>> 8)
      :: (0x00FF &&& (if n > 65535 then 0 else n)) :: rest,
    by rw [write]; rfl, ⟨_, _, rfl, rfl, ?_⟩, ?_⟩
  · rw [hiByte_eq, loByte_eq]
    rcases Nat.lt_or_ge n 65536 with h | h
    · rw [if_neg (by omega)]
      omega
    · have hn' : n = 65536 := by omega
      subst hn'
      decide
  · rw [counterAfter, counterAfter_eq n hn]
    rfl

/-- Witness for C5 at the wrap point: the 65537th write (index 65536)
carries sequence number 0. -/
theorem c5_witness :
    ∃ sent, (write (counterAfter 65536) (some [7, 7])).2.2 = some sent ∧
      (∃ hi lo, sent.get? 0 = some hi ∧ sent.get? 1 = some lo ∧
        256 * hi + lo = 65536 % 65536) ∧
      (write (counterAfter 65536) (some [7, 7])).1 = counterAfter 65537 :=
  c5_packet_counter_wraps 65536 (by omega) [7, 7] (by decide)

/-- C7: the retry decorator re-raises `BleakNotFoundError` at once with
no retry; a first successful attempt needs no retry; a backoff-worthy
error (`BleakDBusError`) sleeps `BLEAK_BACKOFF_TIME = 3` before the next
of at most `DEFAULT_ATTEMPTS = 3` attempts while other recoverable
transport errors retry without sleeping; and after three failed
attempts the last error is raised. -/
theorem c7_retry_policy :
    (∀ f : Nat → AttemptOutcome, f 0 = AttemptOutcome.notFound →
      retry f = ([], 1, RetryResult.raised AttemptOutcome.notFound)) ∧
    (∀ (f : Nat → AttemptOutcome) (v : Nat), f 0 = AttemptOutcome.success v →
      retry f = ([], 1, RetryResult.ok v)) ∧
    (∀ (f : Nat → AttemptOutcome) (v : Nat),
      (f 0 = AttemptOutcome.dbusErr ∨ f 0 = AttemptOutcome.transportErr) →
      f 1 = AttemptOutcome.success v →
      retry f = ((if f 0 = AttemptOutcome.dbusErr then [3] else []), 2,
        RetryResult.ok v)) ∧
    (∀ f : Nat → AttemptOutcome,
      (f 0 = AttemptOutcome.dbusErr ∨ f 0 = AttemptOutcome.transportErr) →
      (f 1 = AttemptOutcome.dbusErr ∨ f 1 = AttemptOutcome.transportErr) →
      (f 2 = AttemptOutcome.dbusErr ∨ f 2 = AttemptOutcome.transportErr) →
      retry f = ((if f 0 = AttemptOutcome.dbusErr then [3] else [])
          ++ (if f 1 = AttemptOutcome.dbusErr then [3] else []), 3,
        RetryResult.raised (f 2))) := by
  refine ⟨?_, ?_, ?_, ?_⟩
  · intro f h0
    simp [retry, retryGo, h0]
  · intro f v h0
    simp [retry, retryGo, h0]
  · intro f v h0 h1
    rcases h0 with h0 | h0 <;>
      simp [retry, retryGo, h0, h1, DEFAULT_ATTEMPTS, BLEAK_BACKOFF_TIME]
  · intro f h0 h1 h2
    rcases h0 with h0 | h0 <;> rcases h1 with h1 | h1 <;>
      rcases h2 with h2 | h2 <;>
      simp [retry, retryGo, h0, h1, h2, DEFAULT_ATTEMPTS, BLEAK_BACKOFF_TIME]

/-- Witness for C7 at concrete outcome traces: a device-not-found fails
immediately; three backoff-worthy failures sleep twice and raise the
last error. -/
theorem c7_witness :
    retry (fun _ => AttemptOutcome.notFound)
      = ([], 1, RetryResult.raised AttemptOutcome.notFound) ∧
    retry (fun _ => AttemptOutcome.dbusErr)
      = ([3, 3], 3, RetryResult.raised AttemptOutcome.dbusErr) := by
  constructor
  · exact c7_retry_policy.1 (fun _ => AttemptOutcome.notFound) rfl
  · have h := c7_retry_policy.2.2.2 (fun _ => AttemptOutcome.dbusErr)
      (Or.inl rfl) (Or.inl rfl) (Or.inl rfl)
    simpa using h

section
attribute [local semireducible] Rat.add Rat.mul Rat.sub Rat.inv

/-- Counterexample to C3: the encoding functions do not "fail by
returning an error value rather than raising an exception".
`set_effect` with a name absent from the table raises `ValueError`
(modelled as `Except.error`; the function has no error-value return
path), and `set_color` with an out-of-range hue (720, outside
`[0, 360)`) does not fail at all — it silently wraps the hue and
produces a packet. -/
theorem c3_counterexample :
    set_effect sampleState "Bogus" 100
      = Except.error (PyErr.valueError, sampleState) ∧
    (set_color sampleState (720, 100) 255).isOk = true := by
  constructor
  · rw [set_effect, if_neg]
    rw [mem_EFFECT_LIST_iff]
    decide
  · decide

end

/-- C3 amended: an effect name absent from the active profile's table
makes `set_effect` raise `ValueError` — before any state change and
producing no packet bytes — rather than returning an error value;
out-of-range brightness/hs values are not validated up front (they
either surface later as `ValueError` from the byte-range checks of
packet construction, or, for hue, are accepted silently). -/
theorem c3_amended_unknown_effect_raises (st : DeviceState) (b : ℚ)
    (effect : String) (h : effect ∉ EFFECT_LIST_0x56) :
    set_effect st effect b = Except.error (PyErr.valueError, st) := by
  rw [set_effect, if_neg h]

/-- Witness for the amended C3 at a concrete input. -/
theorem c3_amended_witness :
    set_effect sampleState "Nonexistent Effect" 42
      = Except.error (PyErr.valueError, sampleState) :=
  c3_amended_unknown_effect_raises sampleState 42 "Nonexistent Effect"
    (by rw [mem_EFFECT_LIST_iff]; decide)

/-- Counterexample to C4: in effects mode `0x25` an effect code absent
from the table does not decode to the sentinel `"Unknown"` — the
lookup raises `KeyError` (code 0 is in no range of the table). -/
theorem c4_counterexample :
    update_effect_state sampleState 0x25 0 none (some 50) (some 200)
      = Except.error (PyErr.keyError, sampleState) := by
  decide

/-- C4 amended: only the music-mode branch (`0x62`) maps an unknown
code to the sentinel `"Unknown"`; the effects-mode branch (`0x25`)
raises `KeyError` for a code absent from the table, and the `0x61`
branch silently ignores codes outside `{0xf0} ∪ [0x01, 0x0a]`, leaving
the state unchanged. -/
theorem c4_amended_unknown_code_behaviour :
    (∀ (st : DeviceState) (sel : Nat) (rgb : Option (List Nat))
        (speed : Option ℤ) (b : ℚ),
      dictGet EFFECT_ID_TO_NAME_0x56 ((sel + 0x32) <<< 8) = none →
      update_effect_state st 0x62 sel rgb speed (some b)
        = Except.ok { st with effect := "Unknown" }) ∧
    (∀ (st : DeviceState) (sel : Nat) (rgb : Option (List Nat))
        (speed : Option ℤ) (b : ℚ),
      dictGet EFFECT_ID_TO_NAME_0x56 sel = none →
      update_effect_state st 0x25 sel rgb speed (some b)
        = Except.error (PyErr.keyError, st)) ∧
    (∀ (st : DeviceState) (sel : Nat) (rgb : Option (List Nat))
        (speed : Option ℤ) (b : ℚ),
      sel ≠ 0xf0 → ¬(0x01 ≤ sel ∧ sel ≤ 0x0a) →
      update_effect_state st 0x61 sel rgb speed (some b)
        = Except.ok st) := by
  refine ⟨?_, ?_, ?_⟩
  · intro st sel rgb speed b hnone
    simp [update_effect_state, hnone]
  · intro st sel rgb speed b hnone
    simp [update_effect_state, hnone]
  · intro st sel rgb speed b hne hrange
    simp [update_effect_state, hne, hrange]

/-- Witness for the amended C4 at concrete inputs: music-mode code 200
(scaled `0xf800`, beyond the table) becomes `"Unknown"`; mode `0x61`
code `0x0b` is ignored. -/
theorem c4_amended_witness :
    update_effect_state sampleState 0x62 200 none (some 50) (some 200)
      = Except.ok { sampleState with effect := "Unknown" } ∧
    update_effect_state sampleState 0x61 0x0b none (some 50) (some 200)
      = Except.ok sampleState :=
  ⟨c4_amended_unknown_code_behaviour.1 sampleState 200 none (some 50) 200
      (by decide),
    c4_amended_unknown_code_behaviour.2.2 sampleState 0x0b none (some 50) 200
      (by decide) (by decide)⟩

/-- The claimed C8 invariant on one state. -/
def offImpliesHS (st : DeviceState) : Prop :=
  st.effect = EFFECT_OFF → st.color_mode = ColorMode.hs

/-- The invariant on either outcome of a state-updating decode (also on
the partially mutated state carried by a raised exception). -/
def invOutcome (r : Except (PyErr × DeviceState) DeviceState) : Prop :=
  match r with
  | Except.ok st => offImpliesHS st
  | Except.error (_, st) => offImpliesHS st

/-- The invariant on either outcome of a command encoder. -/
def invOutcomeP (r : Except (PyErr × DeviceState) (DeviceState × List Nat)) :
    Prop :=
  match r with
  | Except.ok (st, _) => offImpliesHS st
  | Except.error (_, st) => offImpliesHS st

set_option maxRecDepth 8192 in
/-- Every name stored in the inverted effect table differs from the
`"off"` sentinel. -/
theorem dictGet_idToName_ne_off (code : Nat) (name : String)
    (h : dictGet EFFECT_ID_TO_NAME_0x56 code = some name) :
    name ≠ EFFECT_OFF := by
  rw [dictGet] at h
  rcases Option.map_eq_some'.mp h with ⟨p, hp, rfl⟩
  have hall : ∀ q ∈ EFFECT_ID_TO_NAME_0x56, q.2 ≠ EFFECT_OFF := by decide
  exact hall p (List.mem_of_find?_eq_some hp)

set_option maxRecDepth 8192 in
/-- Every name in the effect list differs from the `"off"` sentinel. -/
theorem mem_EFFECT_LIST_ne_off (name : String) (h : name ∈ EFFECT_LIST_0x56) :
    name ≠ EFFECT_OFF := by
  rw [mem_EFFECT_LIST_iff] at h
  have hall : ∀ q ∈ EFFECT_MAP_0x56.map Prod.fst, q ≠ EFFECT_OFF := by decide
  exact hall name h

/-- Counterexample to C8: immediately after construction from no
manufacturer data, `effect = "off"` while `color_mode` is the `UNKNOWN`
default, not hue-saturation — the claimed invariant fails on a
reachable state. -/
theorem c8_counterexample :
    ∃ st, Model0x56_init none = Except.ok st ∧ st.effect = EFFECT_OFF ∧
      st.color_mode = ColorMode.unknown ∧ st.color_mode ≠ ColorMode.hs :=
  ⟨_, rfl, rfl, rfl, by decide⟩

/-- Each step of an encoder's `orRaise`-chain preserves the invariant:
the raised state is the tagged one, the rest is the continuation. -/
theorem invP_bind {α : Type} (stE : DeviceState) (x : Except PyErr α)
    (k : α → Except (PyErr × DeviceState) (DeviceState × List Nat))
    (hE : offImpliesHS stE) (hk : ∀ a, invOutcomeP (k a)) :
    invOutcomeP (orRaise stE x >>= k) := by
  cases x with
  | ok a => exact hk a
  | error e => exact hE

set_option maxRecDepth 16384 in
/-- C8 amended: the decode and command paths preserve the invariant
`effect = "off" → color_mode = hs` — `update_effect_state` (on both its
normal and exception outcomes), `set_color` (which establishes it
outright) and `set_effect` all do — but bare construction does not
establish it: a freshly constructed state may carry `effect = "off"`
with `color_mode = unknown`. -/
theorem c8_amended_invariant_preserved :
    (∀ (st : DeviceState) (mode sel : Nat) (rgb : Option (List Nat))
        (speed : Option ℤ) (br : Option ℚ), offImpliesHS st →
      invOutcome (update_effect_state st mode sel rgb speed br)) ∧
    (∀ (st : DeviceState) (hs : ℚ × ℚ) (b : ℚ),
      invOutcomeP (set_color st hs b)) ∧
    (∀ (st : DeviceState) (effect : String) (b : ℚ), offImpliesHS st →
      invOutcomeP (set_effect st effect b)) := by
  refine ⟨?_, ?_, ?_⟩
  · intro st mode sel rgb speed br h
    rcases br with _ | b
    · exact h
    rw [update_effect_state]
    by_cases h61 : mode = 0x61
    · rw [if_pos h61]
      by_cases hf0 : sel = 0xf0
      · rw [if_pos hf0]
        rcases rgb with _ | r
        · exact h
        rcases hE : rgb_to_hsv r with e | hsv
        · simp only [update_color_state_opt, update_color_state, hE]
          exact h
        · simp only [update_color_state_opt, update_color_state, hE]
          intro _
          rfl
      · rw [if_neg hf0]
        by_cases hr : 0x01 ≤ sel ∧ sel ≤ 0x0a
        · rw [if_pos hr]
          rcases hN : dictGet EFFECT_ID_TO_NAME_0x56 (sel <<< 8) with _ | name
          · simp only [hN]
            intro _
            rfl
          · simp only [hN]
            rcases rgb with _ | r
            · simp only [update_color_state_opt]
              intro heq
              exact absurd heq (dictGet_idToName_ne_off _ _ hN)
            rcases hE : rgb_to_hsv r with e | hsv
            · simp only [update_color_state_opt, update_color_state, hE]
              intro heq
              exact absurd heq (dictGet_idToName_ne_off _ _ hN)
            · simp only [update_color_state_opt, update_color_state, hE]
              intro heq
              exact absurd heq (dictGet_idToName_ne_off _ _ hN)
        · rw [if_neg hr]
          exact h
    · rw [if_neg h61]
      by_cases h62 : mode = 0x62
      · rw [if_pos h62]
        rcases hN : dictGet EFFECT_ID_TO_NAME_0x56 ((sel + 0x32) <<< 8)
            with _ | name
        · simp only [hN]
          intro heq
          exact absurd heq (show ("Unknown" : String) ≠ EFFECT_OFF by decide)
        · simp only [hN]
          intro heq
          exact absurd heq (dictGet_idToName_ne_off _ _ hN)
      · rw [if_neg h62]
        by_cases h25 : mode = 0x25
        · rw [if_pos h25]
          rcases hN : dictGet EFFECT_ID_TO_NAME_0x56 sel with _ | name
          · simp only [hN]
            exact h
          · simp only [hN]
            intro heq
            exact absurd heq (dictGet_idToName_ne_off _ _ hN)
        · rw [if_neg h25]
          exact h
  · intro st hs b
    rw [set_color]
    apply invP_bind
    · exact fun _ => rfl
    · intro p1
      apply invP_bind
      · exact fun _ => rfl
      · intro p2
        apply invP_bind
        · exact fun _ => rfl
        · intro p3
          exact fun _ => rfl
  · intro st effect b h
    rw [set_effect]
    split
    · rename_i hmem
      have hne : effect ≠ EFFECT_OFF := mem_EFFECT_LIST_ne_off effect hmem
      have hinv : ∀ st' : DeviceState, st'.effect = effect → offImpliesHS st' :=
        fun st' he heq => absurd (he ▸ heq) hne
      rcases hM : dictGet EFFECT_MAP_0x56 effect with _ | effect_id
      · simp only [hM]
        exact hinv _ rfl
      simp only [hM]
      by_cases hs1 : 0x0100 ≤ effect_id ∧ effect_id ≤ 0x1100
      · rw [if_pos hs1]
        apply invP_bind
        · exact hinv _ rfl
        · intro p0
          apply invP_bind
          · exact hinv _ rfl
          · intro rgb
            apply invP_bind
            · exact hinv _ rfl
            · intro p1
              apply invP_bind
              · exact hinv _ rfl
              · intro p2
                apply invP_bind
                · exact hinv _ rfl
                · intro p3
                  exact hinv _ rfl
      · rw [if_neg hs1]
        by_cases hs2 : 0x2100 ≤ effect_id ∧ effect_id ≤ 0x4100
        · rw [if_pos hs2]
          apply invP_bind
          · exact hinv _ rfl
          · intro p1
            apply invP_bind
            · exact hinv _ rfl
            · intro rgb
              apply invP_bind
              · exact hinv _ rfl
              · intro p2
                apply invP_bind
                · exact hinv _ rfl
                · intro p3
                  apply invP_bind
                  · exact hinv _ rfl
                  · intro p4
                    apply invP_bind
                    · exact hinv _ rfl
                    · intro bp
                      apply invP_bind
                      · exact hinv _ rfl
                      · intro p5
                        exact hinv _ rfl
        · rw [if_neg hs2]
          apply invP_bind
          · exact hinv _ rfl
          · intro p0
            apply invP_bind
            · exact hinv _ rfl
            · intro p1
              apply invP_bind
              · exact hinv _ rfl
              · intro bp
                apply invP_bind
                · exact hinv _ rfl
                · intro p2
                  exact hinv _ rfl
    · exact h

/-- Witness for the amended C8 at concrete inputs: a colour-mode status
decode on a state violating nothing keeps the invariant, and
`set_color` establishes it outright. -/
theorem c8_amended_witness :
    invOutcome (update_effect_state sampleState 0x61 0xf0
      (some [10, 20, 30]) (some 50) (some 200)) ∧
    invOutcomeP (set_color sampleState (120, 50) 200) :=
  ⟨c8_amended_invariant_preserved.1 sampleState 0x61 0xf0 (some [10, 20, 30])
      (some 50) (some 200) (fun _ => rfl),
    c8_amended_invariant_preserved.2.1 sampleState (120, 50) 200⟩

/-- A state whose firmware byte selects the binary (0x80) decode path. -/
def sampleState80 : DeviceState := { sampleState with fw_major := 0x80 }

/-- Concrete externals for witnesses: ASCII-only inputs make the
utf-8-ignore decode the identity on code points; the enum parameters
are irrelevant to the paths exercised (they are consulted only after
the failure/return points of the inputs used). -/
def idExternals : Externals :=
  { decode := fun l => l, chipValid := fun _ => true,
    orderValid := fun _ => true }

/-- Counterexample to C2: `notification_handler` is not total.  A
truncated frame matching the LED-settings header (`0b 0c 15` at bytes
5..7) on an `fw_major = 0x80` device raises `IndexError` at
`data[11]` instead of returning.  (The externals are never consulted
on this path.) -/
theorem c2_counterexample :
    notification_handler idExternals sampleState80
      [0x00, 0x00, 0x00, 0x00, 0x00, 0x0b, 0x0c, 0x15]
      = Except.error (PyErr.indexError, sampleState80) := by
  decide

set_option maxRecDepth 16384 in
/-- C2 amended: frames that fail the packet-kind discrimination are
safe — the handler returns `None` with every `DeviceState` field
unchanged: (a) binary path (`fw_major = 0x80`) with bytes 5..7 matching
neither known header; (b) text path without a usable last quote;
(c) text path without a usable first quote; (d) text path whose
hex payload decodes but matches none of the `0x81`/`0x0F`/`0x63`
discriminators.  (Frames that do match a header can raise: truncation
raises `IndexError`, unknown `0x25` codes raise `KeyError`, non-hex
payload text raises `ValueError`.) -/
theorem c2_amended_unrecognized_frames_safe :
    (∀ (ext : Externals) (st : DeviceState) (data : List Nat),
      st.fw_major = 0x80 →
      (data.drop 5).take 3 ≠ [0x0b, 0x0c, 0x15] →
      (data.drop 5).take 2 ≠ [0x0e, 0x0f] →
      notification_handler ext st data = Except.ok st) ∧
    (∀ (ext : Externals) (st : DeviceState) (data : List Nat),
      st.fw_major ≠ 0x80 →
      ¬(rfindChar (ext.decode data) 0x22 (ext.decode data).length > 0) →
      notification_handler ext st data = Except.ok st) ∧
    (∀ (ext : Externals) (st : DeviceState) (data : List Nat) (s : List Nat)
        (lq : ℤ),
      st.fw_major ≠ 0x80 → s = ext.decode data →
      lq = rfindChar s 0x22 s.length → lq > 0 →
      ¬(rfindChar s 0x22 lq.toNat > 0) →
      notification_handler ext st data = Except.ok st) ∧
    (∀ (ext : Externals) (st : DeviceState) (data : List Nat) (s : List Nat)
        (lq fq : ℤ) (payload : List Nat) (b0 b1 : Nat),
      st.fw_major ≠ 0x80 → s = ext.decode data →
      lq = rfindChar s 0x22 s.length → lq > 0 →
      fq = rfindChar s 0x22 lq.toNat → fq > 0 →
      fromHex ((s.take lq.toNat).drop (fq.toNat + 1)) = Except.ok payload →
      payload.get? 0 = some b0 → b0 ≠ 0x81 → b0 ≠ 0x0F →
      payload.get? 1 = some b1 → b1 ≠ 0x63 →
      notification_handler ext st data = Except.ok st) := by
  refine ⟨?_, ?_, ?_, ?_⟩
  · intro ext st data h80 hf1 hf2
    simp [notification_handler, h80, hf1, hf2, pure, Except.pure]
  · intro ext st data h80 hq
    simp [notification_handler, h80, hq, pure, Except.pure]
  · intro ext st data s lq h80 hs hlq hpos hq2
    subst hs
    subst hlq
    simp [notification_handler, h80, hpos, hq2, pure, Except.pure]
  · intro ext st data s lq fq payload b0 b1 h80 hs hlq hlqpos hfq hfqpos
      hhex hget0 hb01 hb02 hget1 hb1
    subst hs
    subst hlq
    subst hfq
    simp only [List.get?_eq_getElem?] at hget0 hget1
    simp [notification_handler, h80, hlqpos, hfqpos, hhex, orRaise, pyGet,
      hget0, hb01, hb02, hget1, hb1, pure, Except.pure, bind, Except.bind]

/-- Witness for the amended C2 at concrete inputs: an unmatched binary
frame and a text frame with an unrecognized hex payload both leave the
state untouched. -/
theorem c2_amended_witness :
    notification_handler idExternals sampleState80 [9, 9, 9]
      = Except.ok sampleState80 ∧
    notification_handler idExternals sampleState
      [97, 0x22, 0x30, 0x34, 0x39, 0x39, 0x22]
      = Except.ok sampleState := by
  constructor
  · exact c2_amended_unrecognized_frames_safe.1 idExternals sampleState80
      [9, 9, 9] rfl (by decide) (by decide)
  · exact c2_amended_unrecognized_frames_safe.2.2.2 idExternals sampleState
      [97, 0x22, 0x30, 0x34, 0x39, 0x39, 0x22]
      [97, 0x22, 0x30, 0x34, 0x39, 0x39, 0x22] 6 1 [0x04, 0x99] 4 0x99
      (by decide) rfl (by decide) (by decide) (by decide) (by decide)
      (by decide) (by decide) (by decide) (by decide) (by decide) (by decide)

/-- `sum(l[a:b]) & 0xFF` is the sum modulo 256. -/
theorem checksum_eq_mod (l : List Nat) (a b : Nat) :
    checksum l a b = ((l.take b).drop a).sum % 256 := by
  rw [checksum]
  have h1 : (0xFF : Nat) = 2 ^ 8 - 1 := by norm_num
  rw [h1, Nat.and_pow_two_sub_one_eq_mod]

/-- When every value is a byte, slice assignment succeeds and preserves
the length. -/
theorem setBytesChecked_ok_of_bytes (vs : List ℤ) :
    ∀ (l : List Nat) (i : Nat), (∀ v ∈ vs, 0 ≤ v ∧ v < 256) →
      ∃ l', setBytesChecked l i vs = Except.ok l' ∧ l'.length = l.length := by
  induction vs with
  | nil => exact fun l i _ => ⟨l, rfl, rfl⟩
  | cons v rest ih =>
    intro l i h
    have hv := h v (List.mem_cons_self _ _)
    obtain ⟨l', hl', hlen⟩ := ih (l.set i v.toNat) (i + 1)
      (fun w hw => h w (List.mem_cons_of_mem _ hw))
    refine ⟨l', ?_, ?_⟩
    · rw [setBytesChecked, if_pos hv]
      exact hl'
    · rw [hlen, List.length_set]

/-- Byte assignment of an in-range value. -/
theorem setByteChecked_ok (l : List Nat) (i : Nat) (v : ℤ)
    (h0 : 0 ≤ v) (h1 : v < 256) :
    setByteChecked l i v = Except.ok (l.set i v.toNat) := by
  rw [setByteChecked, if_pos ⟨h0, h1⟩]

/-- The three auxiliary colour values of `colorsys.hsv_to_rgb` stay in
`[0, 1]` for saturation/value in `[0, 1]` and a fractional part in
`[0, 1)`. -/
theorem pqt_range (s v f : ℚ) (hs0 : 0 ≤ s) (hs1 : s ≤ 1) (hv0 : 0 ≤ v)
    (hv1 : v ≤ 1) (hf0 : 0 ≤ f) (hf1 : f < 1) :
    (0 ≤ v * (1 - s) ∧ v * (1 - s) ≤ 1) ∧
    (0 ≤ v * (1 - s * f) ∧ v * (1 - s * f) ≤ 1) ∧
    (0 ≤ v * (1 - s * (1 - f)) ∧ v * (1 - s * (1 - f)) ≤ 1) := by
  have hsf0 : 0 ≤ s * f := mul_nonneg hs0 hf0
  have hsf1 : s * f ≤ 1 := by nlinarith
  have hsg0 : 0 ≤ s * (1 - f) := mul_nonneg hs0 (by linarith)
  have hsg1 : s * (1 - f) ≤ 1 := by nlinarith
  refine ⟨⟨mul_nonneg hv0 (by linarith), by nlinarith⟩,
    ⟨mul_nonneg hv0 (by linarith), by nlinarith⟩,
    ⟨mul_nonneg hv0 (by linarith), by nlinarith⟩⟩

/-- All three components of `colorsys.hsv_to_rgb` lie in `[0, 1]` when
hue is non-negative and saturation/value lie in `[0, 1]`. -/
theorem hsv_to_rgb_frac_range (h s v : ℚ) (hh : 0 ≤ h) (hs0 : 0 ≤ s)
    (hs1 : s ≤ 1) (hv0 : 0 ≤ v) (hv1 : v ≤ 1) :
    (0 ≤ (hsv_to_rgb_frac h s v).1 ∧ (hsv_to_rgb_frac h s v).1 ≤ 1) ∧
    (0 ≤ (hsv_to_rgb_frac h s v).2.1 ∧ (hsv_to_rgb_frac h s v).2.1 ≤ 1) ∧
    (0 ≤ (hsv_to_rgb_frac h s v).2.2 ∧ (hsv_to_rgb_frac h s v).2.2 ≤ 1) := by
  rw [hsv_to_rgb_frac]
  by_cases hs : s = 0
  · rw [if_pos hs]
    exact ⟨⟨hv0, hv1⟩, ⟨hv0, hv1⟩, ⟨hv0, hv1⟩⟩
  rw [if_neg hs]
  have hh6 : 0 ≤ h * 6 := by positivity
  have hpy : ((pyInt (h * 6) : ℤ) : ℚ) = ((⌊h * 6⌋ : ℤ) : ℚ) := by
    rw [pyInt_eq_floor _ hh6]
  have hfr : h * 6 - ((pyInt (h * 6) : ℤ) : ℚ) = Int.fract (h * 6) := by
    rw [hpy, Int.fract]
  have hf0 : 0 ≤ h * 6 - ((pyInt (h * 6) : ℤ) : ℚ) := by
    rw [hfr]; exact Int.fract_nonneg _
  have hf1 : h * 6 - ((pyInt (h * 6) : ℤ) : ℚ) < 1 := by
    rw [hfr]; exact Int.fract_lt_one _
  obtain ⟨hp, hq, ht⟩ := pqt_range s v _ hs0 hs1 hv0 hv1 hf0 hf1
  dsimp only
  split
  · exact ⟨⟨hv0, hv1⟩, ht, hp⟩
  split
  · exact ⟨hq, ⟨hv0, hv1⟩, hp⟩
  split
  · exact ⟨hp, ⟨hv0, hv1⟩, ht⟩
  split
  · exact ⟨hp, hq, ⟨hv0, hv1⟩⟩
  split
  · exact ⟨ht, hp, ⟨hv0, hv1⟩⟩
  · exact ⟨⟨hv0, hv1⟩, hp, hq⟩

/-- `int(x * 255)` of a colour fraction is a byte. -/
theorem pyInt_byte (x : ℚ) (h0 : 0 ≤ x) (h1 : x ≤ 1) :
    0 ≤ pyInt (x * 255) ∧ pyInt (x * 255) < 256 := by
  have hx0 : 0 ≤ x * 255 := by positivity
  rw [pyInt_eq_floor _ hx0]
  constructor
  · exact Int.floor_nonneg.mpr hx0
  · have hle : x * 255 ≤ ((255 : ℤ) : ℚ) := by push_cast; nlinarith
    have h2 : ⌊x * 255⌋ ≤ 255 := by
      have := Int.floor_mono hle
      rwa [Int.floor_intCast] at this
    omega

/-- Every component written into the RGB slots of a colour packet is a
byte, for home-assistant-range inputs. -/
theorem hsv_to_rgb_bytes (h s v : ℚ) (hh : 0 ≤ h) (hs0 : 0 ≤ s)
    (hs1 : s ≤ 100) (hv0 : 0 ≤ v) (hv1 : v ≤ 255) :
    ∀ x ∈ hsv_to_rgb (h, s, v), 0 ≤ x ∧ x < 256 := by
  have hh' : 0 ≤ h / 360 := by positivity
  have hs0' : 0 ≤ s / 100 := by positivity
  have hs1' : s / 100 ≤ 1 := by
    rw [div_le_one (by norm_num)]; linarith
  have hv0' : 0 ≤ v / 255 := by positivity
  have hv1' : v / 255 ≤ 1 := by
    rw [div_le_one (by norm_num)]; linarith
  obtain ⟨hr, hg, hb⟩ :=
    hsv_to_rgb_frac_range (h / 360) (s / 100) (v / 255) hh' hs0' hs1' hv0' hv1'
  intro x hx
  rw [hsv_to_rgb] at hx
  simp only [List.mem_cons, List.not_mem_nil, or_false] at hx
  rcases hx with rfl | rfl | rfl
  · exact pyInt_byte _ hr.1 hr.2
  · exact pyInt_byte _ hg.1 hg.2
  · exact pyInt_byte _ hb.1 hb.2

/-- C6: for every brightness in `[0, 255]` and hue/saturation in range,
`set_color` succeeds and the produced packet carries at index 20 the
checksum `sum(packet[8:19]) mod 256` — the sum over indices 8..18 of
the final packet, computed after the mode, RGB, background and speed
bytes were written.  (The state must carry a byte-ranged effect speed
and background colour, as every reachable state does.) -/
theorem c6_set_color_checksum (st : DeviceState) (h s : ℚ) (b : Nat)
    (hh0 : 0 ≤ h) (hh1 : h < 360) (hs0 : 0 ≤ s) (hs1 : s ≤ 100)
    (hb : b ≤ 255) (sp : ℤ) (hspeq : st.effect_speed = some sp)
    (hsp0 : 0 ≤ sp) (hsp1 : sp < 256) (hbg1 : st.bg_color.1 < 256)
    (hbg2 : st.bg_color.2.1 < 256) (hbg3 : st.bg_color.2.2 < 256) :
    ∃ st' pkt, set_color st (h, s) (b : ℚ) = Except.ok (st', pkt) ∧
      pkt.get? 20 = some (((pkt.take 19).drop 8).sum % 256) := by
  have hrgb : ∀ x ∈ hsv_to_rgb (h, s, (b : ℚ)), 0 ≤ x ∧ x < 256 :=
    hsv_to_rgb_bytes h s (b : ℚ) hh0 hs0 hs1 (by positivity)
      (by exact_mod_cast hb)
  obtain ⟨p1, hp1, hlen1⟩ := setBytesChecked_ok_of_bytes _
    (([0x00, 0x00, 0x80, 0x00, 0x00, 0x0d, 0x0e, 0x0b, 0x41, 0x02, 0xff,
       0x00, 0x00, 0x00, 0x00, 0x00, 0x32, 0x00, 0x00, 0xf0,
       0x64] : List Nat).set 9 0) 10 hrgb
  have hbgbytes : ∀ v ∈ [(st.bg_color.1 : ℤ), (st.bg_color.2.1 : ℤ),
      (st.bg_color.2.2 : ℤ)], 0 ≤ v ∧ v < 256 := by
    intro v hv
    simp only [List.mem_cons, List.not_mem_nil, or_false] at hv
    rcases hv with rfl | rfl | rfl
    · exact ⟨Int.natCast_nonneg _, by exact_mod_cast hbg1⟩
    · exact ⟨Int.natCast_nonneg _, by exact_mod_cast hbg2⟩
    · exact ⟨Int.natCast_nonneg _, by exact_mod_cast hbg3⟩
  obtain ⟨p2, hp2, hlen2⟩ := setBytesChecked_ok_of_bytes _ p1 13 hbgbytes
  have hp3 : setByteOpt p2 16 st.effect_speed
      = Except.ok (p2.set 16 sp.toNat) := by
    rw [hspeq, setByteOpt]
    exact setByteChecked_ok p2 16 sp hsp0 hsp1
  have hlen3 : (p2.set 16 sp.toNat).length = 21 := by
    rw [List.length_set, hlen2, hlen1, List.length_set]
    rfl
  refine ⟨{ st with
      color_mode := ColorMode.hs, hs_color := (h, s),
      brightness := some (b : ℚ) },
    (p2.set 16 sp.toNat).set 20 (checksum (p2.set 16 sp.toNat) 8 19),
    ?_, ?_⟩
  · rw [set_color]
    simp only [hp1, hp2, hp3, orRaise, bind, Except.bind, pure, Except.pure]
  · generalize hq : p2.set 16 sp.toNat = q
    rw [hq] at hlen3
    have hts : ∀ c : Nat, (q.set 20 c).take 19 = q.take 19 := by
      intro c
      rw [List.set_take]
      apply List.set_eq_of_length_le
      rw [List.length_take, hlen3]
      omega
    rw [List.get?_eq_getElem?]
    rw [List.getElem?_set_self (by rw [hlen3]; omega)]
    rw [hts, checksum_eq_mod]

/-- Witness for C6 at concrete inputs: hue 30, saturation 50,
brightness 200 on a state with speed 50 and black background. -/
theorem c6_witness :
    ∃ st' pkt, set_color sampleState (30, 50) ((200 : Nat) : ℚ)
      = Except.ok (st', pkt) ∧
      pkt.get? 20 = some (((pkt.take 19).drop 8).sum % 256) :=
  c6_set_color_checksum sampleState 30 50 200 (by norm_num) (by norm_num)
    (by norm_num) (by norm_num) (by norm_num) 50 rfl (by norm_num)
    (by norm_num) (by decide) (by decide) (by decide)

end LednetWF
